import Mathlib

/-!
Shallow embedding of the PyUMLS repository (files pyumls/utils.py, pyumls/base.py,
pyumls/api.py) for checking its natural-language specification.

JSON-decoded Python values are modelled by the inductive type UValue: strings,
integers, booleans, None/null, lists, dicts (association lists in insertion
order; Python dicts since 3.7 preserve insertion order and have unique keys),
and NamedTuple record instances (vrec), which only arise as outputs of the
normalizer.  Python exceptions are modelled by the PyErr type and Except.
-/

inductive RecordKind where
  | SearchResult
  | SourceAtomCluster
  | Concept
  | Atom
  | Definition
  | AtomClusterRelation
  | SemanticTypeGroup
  | SemanticType
  | Attribute
  | Relation
  | PairwiseRelation
deriving DecidableEq, Repr

inductive UValue where
  | vstr : String → UValue
  | vint : Int → UValue
  | vbool : Bool → UValue
  | vnull : UValue
  | varr : List UValue → UValue
  | vobj : List (String × UValue) → UValue
  | vrec : RecordKind → List (String × UValue) → UValue
  /-- A fresh module object, as produced by calling the module type: reachable
  only through the discriminator "__class__", which getattr resolves to
  type(base); the string is the module name the call was given.  A module is
  neither a str, list nor dict, so the scan leaves it untouched and a
  recursive normalization of it would fail at .items(). -/
  | vmodule : String → UValue
deriving Repr

/-- Python str.upper, character by character.  On the ASCII strings compared
by the code this agrees with Python semantics (Char.toUpper uppercases
exactly the ASCII range). -/
def pyUpper (s : String) : String :=
  String.mk (s.data.map Char.toUpper)

/-- Left-to-right, non-overlapping replacement of a nonempty pattern, as
Python str.replace performs it; after a match the scan resumes past the
replaced occurrence.  The first argument bounds the recursion; each step
consumes at least one character, so a bound of the text's length is exact. -/
def replaceCharsAux (pat rep : List Char) : Nat → List Char → List Char
  | _, [] => []
  | 0, s => s
  | fuel + 1, c :: rest =>
    if pat.isPrefixOf (c :: rest) then
      rep ++ replaceCharsAux pat rep fuel (List.drop (pat.length - 1) rest)
    else
      c :: replaceCharsAux pat rep fuel rest

/-- Python str.replace(pat, rep): every non-overlapping occurrence of pat is
replaced left to right.  An empty pattern inserts rep before every character
and at the end, as Python does (the code only ever calls this with the
literal pattern "SemanticGroup"). -/
def pyReplace (s pat rep : String) : String :=
  match pat.data with
  | [] => String.mk (rep.data ++ s.data.flatMap (fun c => c :: rep.data))
  | _ => String.mk (replaceCharsAux pat.data rep.data s.data.length s.data)

/-- Python exceptions that the embedded code can raise. -/
inductive PyErr where
  /-- AttributeError from calling .items() on a non-dict value. -/
  | attrItems
  /-- AttributeError from calling .replace on a non-string classType value. -/
  | attrReplace
  /-- AttributeError from getattr(base, name) when the base module has no
  attribute of that name: neither a record class, nor an imported typing
  name, nor one of the module object's own attributes. -/
  | attrLookup : String → PyErr
  /-- KeyError from indexing a missing dict key. -/
  | keyMissing : String → PyErr
  /-- TypeError from keyword construction of a NamedTuple with unexpected or
  missing fields, from ** applied to a non-mapping, or from calling a module
  attribute that is not callable or whose signature rejects the given
  keyword arguments. -/
  | typeMismatch
  /-- AssertionError from a failed assert statement. -/
  | assertionFailed
deriving DecidableEq, Repr

/-- Field schema of each record class of pyumls/base.py, in declaration order:
field name paired with its default value when one is declared.  Only
Relation.inverseRelation has a default (None); every other field is required.
NamedTuple performs no runtime type checking of field values. -/
def fieldSpec : RecordKind → List (String × Option UValue)
  | .SearchResult =>
    [("ui", none), ("rootSource", none), ("uri", none), ("name", none)]
  | .SourceAtomCluster =>
    [("ui", none), ("suppressible", none), ("obsolete", none),
     ("rootSource", none), ("atomCount", none), ("cVMemberCount", none),
     ("attributes", none), ("atoms", none), ("descendants", none),
     ("ancestors", none), ("parents", none), ("children", none),
     ("relations", none), ("definitions", none), ("concepts", none),
     ("defaultPreferredAtom", none), ("name", none)]
  | .Concept =>
    [("ui", none), ("suppressible", none), ("dateAdded", none),
     ("majorRevisionDate", none), ("status", none), ("semanticTypes", none),
     ("atomCount", none), ("attributeCount", none), ("cvMemberCount", none),
     ("atoms", none), ("definitions", none), ("relations", none),
     ("defaultPreferredAtom", none), ("relationCount", none), ("name", none)]
  | .Atom =>
    [("ui", none), ("suppressible", none), ("obsolete", none),
     ("rootSource", none), ("termType", none), ("code", none),
     ("concept", none), ("sourceConcept", none), ("sourceDescriptor", none),
     ("attributes", none), ("parents", none), ("ancestors", none),
     ("children", none), ("descendants", none), ("relations", none),
     ("name", none), ("language", none)]
  | .Definition =>
    [("sourceOriginated", none), ("rootSource", none), ("value", none)]
  | .AtomClusterRelation =>
    [("ui", none), ("suppressible", none), ("sourceUi", none),
     ("obsolete", none), ("sourceOriginated", none), ("rootSource", none),
     ("groupId", none), ("attributeCount", none), ("relatedFromId", none),
     ("relatedFromIdName", none), ("relationLabel", none),
     ("additionalRelationLabel", none), ("relatedId", none),
     ("relatedIdName", none)]
  | .SemanticTypeGroup =>
    [("abbreviation", none), ("expandedForm", none), ("semanticTypeCount", none)]
  | .SemanticType =>
    [("abbreviation", none), ("ui", none), ("definition", none),
     ("example", none), ("nonHuman", none), ("usageNote", none),
     ("treeNumber", none), ("semanticTypeGroup", none), ("name", none),
     ("relations", none), ("inverseRelations", none),
     ("inheritedRelations", none), ("inverseInheritedRelations", none),
     ("childCount", none)]
  | .Attribute =>
    [("ui", none), ("sourceUi", none), ("rootSource", none), ("name", none),
     ("value", none)]
  | .Relation =>
    [("relation", none), ("type", none), ("flag", none), ("other", none),
     ("inverseRelation", some .vnull)]
  | .PairwiseRelation =>
    [("relation1", none), ("relationType", none), ("relation2", none)]

/-- The record-class portion of getattr(base, name): the record class of the
base module named by the string, if any.  The base module's other
attributes (imported typing names and the module object's own attributes,
including __init__ and __class__) are resolved separately in genericPath. -/
def recordKind? (s : String) : Option RecordKind :=
  if s == "SearchResult" then some .SearchResult
  else if s == "SourceAtomCluster" then some .SourceAtomCluster
  else if s == "Concept" then some .Concept
  else if s == "Atom" then some .Atom
  else if s == "Definition" then some .Definition
  else if s == "AtomClusterRelation" then some .AtomClusterRelation
  else if s == "SemanticTypeGroup" then some .SemanticTypeGroup
  else if s == "SemanticType" then some .SemanticType
  else if s == "Attribute" then some .Attribute
  else if s == "Relation" then some .Relation
  else if s == "PairwiseRelation" then some .PairwiseRelation
  else none

/-- cls(**kwargs) for a NamedTuple class cls: fails with TypeError when a
keyword is not a declared field or a required (defaultless) field is missing;
otherwise yields the record with fields in declaration order, each taking the
keyword value or the declared default. -/
def constructRecord (k : RecordKind) (kwargs : List (String × UValue)) :
    Except PyErr UValue :=
  let spec := fieldSpec k
  if kwargs.all (fun kv => spec.any (fun f => f.1 == kv.1)) &&
      spec.all (fun f => f.2.isSome || kwargs.any (fun kv => kv.1 == f.1)) then
    .ok (.vrec k (spec.map fun f =>
      (f.1, ((List.lookup f.1 kwargs).getD (f.2.getD .vnull)))))
  else
    .error .typeMismatch

/-- val.get("classType", "") == "SemanticGroup" of the scan loop. -/
def isSGTagged (d : List (String × UValue)) : Bool :=
  match List.lookup "classType" d with
  | some (.vstr s) => s == "SemanticGroup"
  | _ => false

/-- SearchResult(**result) mapped over the elements of results["results"]:
each element must be a mapping (** of a non-mapping is a TypeError). -/
def constructHits : List UValue → Except PyErr (List UValue)
  | [] => .ok []
  | .vobj e :: rest => do
    let r ← constructRecord .SearchResult e
    let rs ← constructHits rest
    .ok (r :: rs)
  | _ :: _ => .error .typeMismatch

/-- The searchResults branch of parse_json_results: list(map(lambda r:
SearchResult(**r), results["results"])).  The "results" value here is the
post-scan value (the scan has already replaced a list value by its normalized
form).  Iterating a non-list Python value is modelled faithfully: a record
(tuple) iterates over its field values, a dict over its keys, a string over
its one-character substrings; numbers, booleans and None are not iterable
(TypeError).  The mapping is returned as the post-state unchanged: this branch
does not pop "classType". -/
def searchResultsPath (sm : List (String × UValue)) :
    Except PyErr (UValue × UValue) :=
  match List.lookup "results" sm with
  | none => .error (.keyMissing "results")
  | some (.varr elems) =>
    (constructHits elems).map fun rs => (.varr rs, .vobj sm)
  | some (.vrec _ fs) =>
    (constructHits (fs.map (·.2))).map fun rs => (.varr rs, .vobj sm)
  | some (.vobj d) =>
    (constructHits (d.map (fun kv => .vstr kv.1))).map fun rs =>
      (.varr rs, .vobj sm)
  | some (.vstr s) =>
    (constructHits (s.data.map (fun c => .vstr (String.mk [c])))).map fun rs =>
      (.varr rs, .vobj sm)
  | some _ => .error .typeMismatch

/-- The names the base module holds by its import statement besides the
record classes: from typing import Any, Dict, NamedTuple as UMLSResult,
Sequence, Optional.  getattr resolves them, but each raises TypeError when
called with keyword arguments (typing special forms and generic aliases
cannot be instantiated; NamedTuple's functional form requires a positional
typename). -/
def typingAliasNames : List String :=
  ["Any", "Dict", "UMLSResult", "Sequence", "Optional"]

/-- The remaining attributes a CPython module object exposes (its instance
dict entries and the attributes inherited from the module type and object),
other than __init__ and __class__, as of CPython 3.11; the exact dunder
surface varies slightly across interpreter versions.  Every one of them
either is not callable (strings such as __name__, dicts such as __dict__,
the loader and spec objects) or is a method whose signature rejects these
keyword arguments, so calling it with the mapping's remaining entries as
keywords raises TypeError. -/
def moduleOtherAttrNames : List String :=
  ["__annotations__", "__builtins__", "__cached__", "__delattr__", "__dict__",
   "__dir__", "__doc__", "__eq__", "__file__", "__format__", "__ge__",
   "__getattribute__", "__getstate__", "__gt__", "__hash__",
   "__init_subclass__", "__le__", "__loader__", "__lt__", "__name__",
   "__ne__", "__new__", "__package__", "__reduce__", "__reduce_ex__",
   "__repr__", "__setattr__", "__sizeof__", "__spec__", "__str__",
   "__subclasshook__"]

/-- Whether keyword arguments bind against the module type's signature
(name: str, doc=None): both base.__init__(**kwargs) and the module type
base.__class__(**kwargs) accept exactly a required string "name" and an
optional "doc" of any type; any other keyword, a missing name, or a
non-string name raises TypeError. -/
def moduleCallBinds (kwargs : List (String × UValue)) : Bool :=
  kwargs.all (fun kv => kv.1 == "name" || kv.1 == "doc") &&
    (match List.lookup "name" kwargs with
     | some (.vstr _) => true
     | _ => false)

/-- The "name" keyword's string, defined when moduleCallBinds holds. -/
def moduleNameArg (kwargs : List (String × UValue)) : String :=
  match List.lookup "name" kwargs with
  | some (.vstr s) => s
  | _ => ""

/-- The generic constructor branch of parse_json_results: pop "classType"
(mutating the mapping), rewrite the substring "SemanticGroup" to
"SemanticTypeGroup" in its value, resolve the name on the base module with
getattr, and call the resolved attribute with the remaining entries as
keywords.  A record class constructs the record.  Of the other attributes
getattr can resolve, only base.__init__ and base.__class__ can be called
successfully with keyword arguments: __init__ re-initializes the module in
place (a side effect outside this value model) and returns None, and
__class__ — the module type — returns a fresh module object; both need the
kwargs to bind the (name: str, doc=None) signature.  Every other resolvable
attribute raises TypeError when called, and an unresolvable name raises
AttributeError at getattr.  On every success path the post-state is the
mapping with the "classType" entry removed. -/
def genericPath (s : String) (sm : List (String × UValue)) :
    Except PyErr (UValue × UValue) :=
  match recordKind? (pyReplace s "SemanticGroup" "SemanticTypeGroup") with
  | some k =>
    (constructRecord k (sm.eraseP (fun kv => kv.1 == "classType"))).map
      fun r => (r, .vobj (sm.eraseP (fun kv => kv.1 == "classType")))
  | none =>
    if typingAliasNames.contains
        (pyReplace s "SemanticGroup" "SemanticTypeGroup") then
      .error .typeMismatch
    else if pyReplace s "SemanticGroup" "SemanticTypeGroup" == "__init__" then
      if moduleCallBinds (sm.eraseP (fun kv => kv.1 == "classType")) then
        .ok (.vnull, .vobj (sm.eraseP (fun kv => kv.1 == "classType")))
      else
        .error .typeMismatch
    else if pyReplace s "SemanticGroup" "SemanticTypeGroup" == "__class__" then
      if moduleCallBinds (sm.eraseP (fun kv => kv.1 == "classType")) then
        .ok (.vmodule (moduleNameArg (sm.eraseP (fun kv => kv.1 == "classType"))),
             .vobj (sm.eraseP (fun kv => kv.1 == "classType")))
      else
        .error .typeMismatch
    else if moduleOtherAttrNames.contains
        (pyReplace s "SemanticGroup" "SemanticTypeGroup") then
      .error .typeMismatch
    else
      .error (.attrLookup (pyReplace s "SemanticGroup" "SemanticTypeGroup"))

/-- The branch dispatch of parse_json_results after the scan loop, operating
on the scanned mapping: the two structural cases (a "relation" or "relation1"
key with no discriminator), the discriminator-free pass-through, the
searchResults special case, and the generic constructor path.  A non-string
discriminator value reaches .replace and raises AttributeError. -/
def dispatch (sm : List (String × UValue)) : Except PyErr (UValue × UValue) :=
  match List.lookup "classType" sm with
  | none =>
    if (List.lookup "relation" sm).isSome then
      (constructRecord .Relation sm).map fun r => (r, .vobj sm)
    else if (List.lookup "relation1" sm).isSome then
      (constructRecord .PairwiseRelation sm).map fun r => (r, .vobj sm)
    else
      .ok (.vobj sm, .vobj sm)
  | some (.vstr s) =>
    if s == "searchResults" then searchResultsPath sm else genericPath s sm
  | some _ => .error .attrReplace

mutual

/-- parse_json_results of pyumls/utils.py.  The result pairs the returned
value with the post-state of the argument, making the in-place mutation of
the argument observable: Python dict values are replaced during the scan loop
and pop("classType") removes a key, while a list argument keeps its (mutated)
element objects even though a fresh list is returned.  A non-dict, non-list
argument raises AttributeError at .items().  String comparison val.upper() ==
"NONE" is modelled with pyUpper, which agrees with Python str.upper on ASCII
strings. -/
def parseJsonResults : UValue → Except PyErr (UValue × UValue)
  | .varr xs =>
    (parseList xs).map fun ps => (.varr (ps.map (·.1)), .varr (ps.map (·.2)))
  | .vobj m => (scanFields m).bind dispatch
  | _ => .error .attrItems

/-- list(map(lambda result: parse_json_results(result), results)) with Python
evaluation order: the first raised exception propagates. -/
def parseList : List UValue → Except PyErr (List (UValue × UValue))
  | [] => .ok []
  | x :: xs => do
    let p ← parseJsonResults x
    let ps ← parseList xs
    .ok (p :: ps)

/-- The scan loop of parse_json_results over the items of the mapping, in
insertion order; each value is rewritten by scanValue.  Replacing values does
not disturb Python dict iteration, so the loop is a map over the entries. -/
def scanFields : List (String × UValue) → Except PyErr (List (String × UValue))
  | [] => .ok []
  | (k, v) :: rest => do
    let v2 ← scanValue v
    let rest2 ← scanFields rest
    .ok ((k, v2) :: rest2)

/-- One value rewrite of the scan loop: case-insensitive "none" strings
become None; list values and mappings tagged classType == "SemanticGroup"
are replaced by their recursively normalized form (the returned value of the
recursive parse_json_results call, whose own post-state is dropped because
the parent slot now holds the new value); every other value is untouched. -/
def scanValue : UValue → Except PyErr UValue
  | .vstr s => .ok (if pyUpper s == "NONE" then .vnull else .vstr s)
  | .varr xs => (parseList xs).map fun ps => .varr (ps.map (·.1))
  | .vobj d =>
    if isSGTagged d then (scanFields d).bind (fun sd => (dispatch sd).map (·.1))
    else .ok (.vobj d)
  | v => .ok v

end

/-!
The Request Facade of pyumls/api.py.  A Request models the single HTTP GET a
facade operation issues: the full URL and the query parameters the transport
receives.  Returning an error value models an exception raised before any
request is issued (the AssertionError of a failed parameter check): no
Request value exists in that case.
-/

structure Request where
  url : String
  params : List (String × UValue)
deriving Repr

structure UMLSClient where
  apiKey : String
  version : String
deriving Repr

def base_url : String := "https://uts-ws.nlm.nih.gov/rest"

/-- Python dict assignment d[k] = v: the value is replaced in place when the
key exists (keeping its position), otherwise the entry is appended.  Python
dicts have unique keys, so replacing every matching entry of the association
list coincides with replacing the one. -/
def setParam (ps : List (String × UValue)) (k : String) (v : UValue) :
    List (String × UValue) :=
  if ps.any (fun kv => kv.1 == k) then
    ps.map (fun kv => if kv.1 == k then (k, v) else kv)
  else
    ps ++ [(k, v)]

/-- params.update({...}): each entry of the update mapping is assigned in
order. -/
def updateParams (ps upd : List (String × UValue)) :
    List (String × UValue) :=
  upd.foldl (fun acc kv => setParam acc kv.1 kv.2) ps

/-- UMLS._get_request up to the point the HTTP GET is issued: default the
params to an empty dict, overwrite the "apiKey" entry with the client's
stored key, and target base_url/endpoint.  (The response handling —
raise_for_status and parse_json_results of the body's "result" field — acts
on the reply, not on the issued request, and is not needed by the claims.) -/
def get_request (c : UMLSClient) (endpoint : String)
    (params : Option (List (String × UValue))) : Request :=
  { url := base_url ++ "/" ++ endpoint,
    params := setParam (params.getD []) "apiKey" (.vstr c.apiKey) }

def inputTypeChoices : List String :=
  ["atom", "code", "sourceConcept", "sourceDescriptor", "sourceUi", "tty"]

def searchTypeChoices : List String :=
  ["exact", "words", "leftTruncation", "rightTruncation",
   "normalizedString", "normalizedWords"]

def returnIdTypeChoices : List String :=
  ["aui", "concept", "code", "sourceConcept", "sourceDescriptor", "sourceUi"]

/-- UMLS.search: the assert statements run in source order before any request
is built; a failed assert raises AssertionError, so an error value here means
no HTTP request was issued.  On success the kwargs dict is updated with the
seven required parameters and handed to _get_request for the
search/{version} endpoint. -/
def search (c : UMLSClient) (query input_type search_type : String)
    (partial_search : Bool) (return_id_type : String)
    (page_size page_number : Int) (kwargs : List (String × UValue)) :
    Except PyErr Request :=
  if inputTypeChoices.contains input_type = false then .error .assertionFailed
  else if searchTypeChoices.contains search_type = false then .error .assertionFailed
  else if returnIdTypeChoices.contains return_id_type = false then .error .assertionFailed
  else if page_size ≤ 0 then .error .assertionFailed
  else if page_number ≤ 0 then .error .assertionFailed
  else
    .ok (get_request c ("search/" ++ c.version) (some (updateParams kwargs
      [("string", .vstr query),
       ("inputType", .vstr input_type),
       ("searchType", .vstr search_type),
       ("partialSearch", .vbool partial_search),
       ("returnIdType", .vstr return_id_type),
       ("pageSize", .vint page_size),
       ("pageNumber", .vint page_number)])))

/-!
Predicates used by the theorems below.
-/

/-- Strings the scan loop rewrites to None: equal to "none" in any case
combination. -/
def isNoneString : UValue → Bool
  | .vstr s => pyUpper s == "NONE"
  | _ => false

/-- Values the scan loop leaves untouched: not a case-insensitive "none"
string, not a list, and not a mapping tagged classType == "SemanticGroup". -/
def scanInert : UValue → Bool
  | .vstr s => !(pyUpper s == "NONE")
  | .varr _ => false
  | .vobj d => !(isSGTagged d)
  | _ => true

def isRawObj : UValue → Bool
  | .vobj _ => true
  | _ => false

mutual

/-- The spec's normalization invariant as a checkable predicate: nowhere in
the value does a constructed record hold a raw (untyped) mapping as a direct
field value; records, sequences and mappings are checked recursively. -/
def recordFieldsTyped : UValue → Bool
  | .varr xs => recordFieldsTypedList xs
  | .vobj fs => recordFieldsTypedFields fs
  | .vrec _ fs => fs.all (fun kv => !(isRawObj kv.2)) && recordFieldsTypedFields fs
  | _ => true

def recordFieldsTypedList : List UValue → Bool
  | [] => true
  | x :: xs => recordFieldsTyped x && recordFieldsTypedList xs

def recordFieldsTypedFields : List (String × UValue) → Bool
  | [] => true
  | (_, v) :: rest => recordFieldsTyped v && recordFieldsTypedFields rest

end

/-- A raw search hit as the search endpoint emits it: a flat mapping with
exactly the four SearchResult fields, string-valued. -/
structure RawHit where
  ui : String
  rootSource : String
  uri : String
  name : String

def rawHitObj (q : RawHit) : UValue :=
  .vobj [("ui", .vstr q.ui), ("rootSource", .vstr q.rootSource),
         ("uri", .vstr q.uri), ("name", .vstr q.name)]

def rawHitRec (q : RawHit) : UValue :=
  .vrec .SearchResult
    [("ui", .vstr q.ui), ("rootSource", .vstr q.rootSource),
     ("uri", .vstr q.uri), ("name", .vstr q.name)]

/-- None of the four fields of the raw hit is a case-insensitive "none"
string, so the scan leaves the hit unchanged. -/
def rawHitInert (q : RawHit) : Bool :=
  !(pyUpper q.ui == "NONE") && !(pyUpper q.rootSource == "NONE") &&
  !(pyUpper q.uri == "NONE") && !(pyUpper q.name == "NONE")

/-!
Reduction and structure lemmas used by the claim theorems.
-/

theorem exceptBind_ok {α β ε : Type} (a : α) (f : α → Except ε β) :
    (Except.ok a >>= f) = f a := rfl

theorem exceptBind_error {α β ε : Type} (e : ε) (f : α → Except ε β) :
    ((Except.error e : Except ε α) >>= f) = .error e := rfl

theorem exceptMap_ok {α β ε : Type} (f : α → β) (a : α) :
    (Except.ok a : Except ε α).map f = .ok (f a) := rfl

theorem exceptMap_error {α β ε : Type} (f : α → β) (e : ε) :
    (Except.error e : Except ε α).map f = .error e := rfl

theorem lookup_eq_none_of_not_mem {β : Type} (k : String)
    (l : List (String × β)) (h : k ∉ l.map Prod.fst) : List.lookup k l = none := by
  induction l with
  | nil => rfl
  | cons kv rest ih =>
    simp only [List.map_cons, List.mem_cons, not_or] at h
    have hk : (k == kv.1) = false := beq_false_of_ne h.1
    simp [List.lookup, hk, ih h.2]

theorem scanValue_inert (v : UValue) (h : scanInert v = true) :
    scanValue v = .ok v := by
  cases v with
  | vstr s =>
    simp only [scanInert, Bool.not_eq_true'] at h
    simp [scanValue, h]
  | varr xs => simp [scanInert] at h
  | vobj d =>
    simp only [scanInert, Bool.not_eq_true'] at h
    simp [scanValue, h]
  | vint n => simp [scanValue]
  | vbool b => simp [scanValue]
  | vnull => simp [scanValue]
  | vrec k fs => simp [scanValue]
  | vmodule nm => simp [scanValue]

theorem scanFields_inert (m : List (String × UValue))
    (h : m.all (fun kv => scanInert kv.2) = true) : scanFields m = .ok m := by
  induction m with
  | nil => rfl
  | cons kv rest ih =>
    obtain ⟨k, v⟩ := kv
    simp only [List.all_cons, Bool.and_eq_true] at h
    simp [scanFields, scanValue_inert v h.1, ih h.2, exceptBind_ok]

theorem scanFields_forall2 (m sm : List (String × UValue))
    (h : scanFields m = .ok sm) :
    List.Forall₂ (fun a b => a.1 = b.1 ∧ scanValue a.2 = .ok b.2) m sm := by
  induction m generalizing sm with
  | nil =>
    simp only [scanFields] at h
    cases h
    exact .nil
  | cons kv rest ih =>
    obtain ⟨k, v⟩ := kv
    simp only [scanFields] at h
    cases hv : scanValue v with
    | error e => rw [hv, exceptBind_error] at h; cases h
    | ok v2 =>
      rw [hv, exceptBind_ok] at h
      cases hr : scanFields rest with
      | error e => rw [hr, exceptBind_error] at h; cases h
      | ok rest2 =>
        rw [hr, exceptBind_ok] at h
        cases h
        exact .cons ⟨rfl, hv⟩ (ih rest2 hr)

theorem scanFields_keys (m sm : List (String × UValue))
    (h : scanFields m = .ok sm) : sm.map Prod.fst = m.map Prod.fst := by
  have h2 := scanFields_forall2 m sm h
  clear h
  induction h2 with
  | nil => rfl
  | cons hab _ ih => simp [hab.1, ih]

theorem scanFields_mem_inert (m sm : List (String × UValue))
    (h : scanFields m = .ok sm) :
    ∀ kv ∈ m, scanInert kv.2 = true → kv ∈ sm := by
  have h2 := scanFields_forall2 m sm h
  clear h
  induction h2 with
  | nil => intro kv hkv; cases hkv
  | @cons a b l1 l2 hab _ ih =>
    intro kv hkv hin
    cases hkv with
    | head =>
      obtain ⟨hk1, hv⟩ := hab
      rw [scanValue_inert _ hin] at hv
      injection hv with hv2
      have hb : a = b := Prod.ext_iff.mpr ⟨hk1, hv2⟩
      rw [hb]
      exact List.mem_cons_self _ _
    | tail _ htl => exact List.mem_cons_of_mem _ (ih kv htl hin)

theorem scanFields_mem_none (m sm : List (String × UValue))
    (h : scanFields m = .ok sm) :
    ∀ kv ∈ m, isNoneString kv.2 = true → (kv.1, UValue.vnull) ∈ sm := by
  have h2 := scanFields_forall2 m sm h
  clear h
  induction h2 with
  | nil => intro kv hkv; cases hkv
  | @cons a b l1 l2 hab _ ih =>
    obtain ⟨k0, v0⟩ := a
    obtain ⟨k1, v1⟩ := b
    intro kv hkv hn
    cases hkv with
    | head =>
      obtain ⟨hk1, hv⟩ := hab
      simp only at hk1 hv hn
      cases v0 with
      | vstr s =>
        simp only [isNoneString] at hn
        simp only [scanValue, hn, if_true] at hv
        injection hv with hveq
        simp only [List.mem_cons]
        left
        rw [← hk1, ← hveq]
      | vint n => simp [isNoneString] at hn
      | vbool b2 => simp [isNoneString] at hn
      | vnull => simp [isNoneString] at hn
      | varr xs => simp [isNoneString] at hn
      | vobj d => simp [isNoneString] at hn
      | vrec k fs => simp [isNoneString] at hn
      | vmodule nm2 => simp [isNoneString] at hn
    | tail _ htl => exact List.mem_cons_of_mem _ (ih kv htl hn)

theorem parseList_forall2 (S : List UValue) (ps : List (UValue × UValue))
    (h : parseList S = .ok ps) :
    List.Forall₂ (fun x pr => parseJsonResults x = .ok pr) S ps := by
  induction S generalizing ps with
  | nil => simp only [parseList] at h; cases h; exact .nil
  | cons x xs ih =>
    simp only [parseList] at h
    cases hx : parseJsonResults x with
    | error e => rw [hx, exceptBind_error] at h; cases h
    | ok pr =>
      rw [hx, exceptBind_ok] at h
      cases hr : parseList xs with
      | error e => rw [hr, exceptBind_error] at h; cases h
      | ok prs =>
        rw [hr, exceptBind_ok] at h
        cases h
        exact .cons hx (ih prs hr)

theorem searchResultsPath_post (sm : List (String × UValue)) (r p : UValue)
    (h : searchResultsPath sm = .ok (r, p)) : p = .vobj sm := by
  unfold searchResultsPath at h
  split at h
  · cases h
  all_goals
    first
    | cases h
    | (generalize hch : constructHits _ = ch at h
       cases ch with
       | error e => rw [exceptMap_error] at h; cases h
       | ok rs => rw [exceptMap_ok] at h; cases h; rfl)

theorem genericPath_post (s : String) (sm : List (String × UValue)) (r p : UValue)
    (h : genericPath s sm = .ok (r, p)) :
    p = .vobj (sm.eraseP (fun kv => kv.1 == "classType")) := by
  unfold genericPath at h
  split at h
  · generalize hcr : constructRecord _ _ = cr at h
    cases cr with
    | error e => rw [exceptMap_error] at h; cases h
    | ok rr => rw [exceptMap_ok] at h; cases h; rfl
  · split at h
    · cases h
    · split at h
      · split at h
        · cases h; rfl
        · cases h
      · split at h
        · split at h
          · cases h; rfl
          · cases h
        · split at h
          · cases h
          · cases h

theorem dispatch_post (sm : List (String × UValue)) (r p : UValue)
    (h : dispatch sm = .ok (r, p)) :
    p = .vobj sm ∨ p = .vobj (sm.eraseP (fun kv => kv.1 == "classType")) := by
  unfold dispatch at h
  split at h
  · split at h
    · generalize hcr : constructRecord .Relation sm = cr at h
      cases cr with
      | error e => rw [exceptMap_error] at h; cases h
      | ok rr => rw [exceptMap_ok] at h; cases h; exact .inl rfl
    · split at h
      · generalize hcr : constructRecord .PairwiseRelation sm = cr at h
        cases cr with
        | error e => rw [exceptMap_error] at h; cases h
        | ok rr => rw [exceptMap_ok] at h; cases h; exact .inl rfl
      · cases h; exact .inl rfl
  · split at h
    · exact .inl (searchResultsPath_post sm r p h)
    · exact .inr (genericPath_post _ sm r p h)
  · cases h

theorem lookup_map_replace (ps : List (String × UValue)) (k : String) (v : UValue) :
    List.lookup k (ps.map (fun kv => if kv.1 == k then (k, v) else kv)) =
      if ps.any (fun kv => kv.1 == k) then some v else none := by
  induction ps with
  | nil => simp [List.lookup]
  | cons kv rest ih =>
    obtain ⟨k1, v1⟩ := kv
    simp only [List.map_cons, List.any_cons]
    by_cases hk : (k1 == k) = true
    · rw [if_pos hk,
        if_pos (show (k1 == k || rest.any fun kv => kv.1 == k) = true by
          rw [hk, Bool.true_or])]
      simp [List.lookup]
    · have hkf : (k1 == k) = false := by
        simp only [Bool.not_eq_true] at hk
        exact hk
      have hne : k1 ≠ k := beq_eq_false_iff_ne.mp hkf
      have hk2 : (k == k1) = false := beq_false_of_ne (Ne.symm hne)
      rw [if_neg hk]
      simp only [List.lookup, hk2, hkf, Bool.false_or]
      exact ih

theorem lookup_append_of_none (ps l : List (String × UValue)) (k : String)
    (h : ps.any (fun kv => kv.1 == k) = false) :
    List.lookup k (ps ++ l) = List.lookup k l := by
  induction ps with
  | nil => simp
  | cons kv rest ih =>
    obtain ⟨k1, v1⟩ := kv
    simp only [List.any_cons, Bool.or_eq_false_iff] at h
    have hne : k1 ≠ k := beq_eq_false_iff_ne.mp h.1
    have hk2 : (k == k1) = false := beq_false_of_ne (Ne.symm hne)
    simp only [List.cons_append, List.lookup, hk2]
    exact ih h.2

theorem lookup_setParam_self (ps : List (String × UValue)) (k : String) (v : UValue) :
    List.lookup k (setParam ps k v) = some v := by
  unfold setParam
  by_cases hp : ps.any (fun kv => kv.1 == k) = true
  · rw [if_pos hp, lookup_map_replace, if_pos hp]
  · have hpf : ps.any (fun kv => kv.1 == k) = false := by
      simp only [Bool.not_eq_true] at hp
      exact hp
    rw [if_neg hp, lookup_append_of_none _ _ _ hpf]
    simp [List.lookup]

/-- C7: calling UMLS.search with a search_type outside the fixed allow-list
fails with an AssertionError (a precondition failure): no Request value is
produced, so no HTTP request is issued. -/
theorem C7_invalid_search_type_fails (c : UMLSClient)
    (query input_type search_type : String) (partial_search : Bool)
    (return_id_type : String) (page_size page_number : Int)
    (kwargs : List (String × UValue))
    (h : searchTypeChoices.contains search_type = false) :
    search c query input_type search_type partial_search return_id_type
      page_size page_number kwargs = .error .assertionFailed := by
  unfold search
  by_cases h1 : inputTypeChoices.contains input_type = false
  · rw [if_pos h1]
  · rw [if_neg h1, if_pos h]

theorem C7_witness :
    searchTypeChoices.contains "invalidOption" = false ∧
    search ⟨"K", "current"⟩ "diabetes" "atom" "invalidOption" false "concept"
      32 1 [] = .error .assertionFailed :=
  ⟨by decide, C7_invalid_search_type_fails ⟨"K", "current"⟩ "diabetes" "atom"
    "invalidOption" false "concept" 32 1 [] (by decide)⟩

/-- C10: every request _get_request issues carries the client's stored key as
the "apiKey" query parameter (overwriting any caller-supplied entry), and so
does every request the search operation issues. -/
theorem C10_api_key_every_request :
    (∀ (c : UMLSClient) (endpoint : String)
      (params : Option (List (String × UValue))),
      List.lookup "apiKey" (get_request c endpoint params).params =
        some (.vstr c.apiKey)) ∧
    (∀ (c : UMLSClient) (query input_type search_type : String)
      (partial_search : Bool) (return_id_type : String)
      (page_size page_number : Int) (kwargs : List (String × UValue))
      (req : Request),
      search c query input_type search_type partial_search return_id_type
        page_size page_number kwargs = .ok req →
      List.lookup "apiKey" req.params = some (.vstr c.apiKey)) := by
  constructor
  · intro c endpoint params
    exact lookup_setParam_self _ _ _
  · intro c query input_type search_type partial_search return_id_type
      page_size page_number kwargs req h
    unfold search at h
    split at h
    · cases h
    · split at h
      · cases h
      · split at h
        · cases h
        · split at h
          · cases h
          · split at h
            · cases h
            · cases h
              exact lookup_setParam_self _ _ _

theorem C10_witness :
    List.lookup "apiKey" (get_request ⟨"K", "current"⟩ "content/current/CUI/C1"
      (some [("apiKey", UValue.vstr "caller"), ("b", UValue.vint 2)])).params =
      some (UValue.vstr "K") ∧
    List.lookup "apiKey" (get_request ⟨"K", "current"⟩ "x" none).params =
      some (UValue.vstr "K") ∧
    List.lookup "apiKey" (get_request ⟨"K", "current"⟩ ("search/" ++ "current")
      (some (updateParams []
        [("string", UValue.vstr "diabetes"),
         ("inputType", UValue.vstr "atom"),
         ("searchType", UValue.vstr "words"),
         ("partialSearch", UValue.vbool false),
         ("returnIdType", UValue.vstr "concept"),
         ("pageSize", UValue.vint 32),
         ("pageNumber", UValue.vint 1)]))).params = some (UValue.vstr "K") :=
  ⟨C10_api_key_every_request.1 ⟨"K", "current"⟩ "content/current/CUI/C1"
    (some [("apiKey", UValue.vstr "caller"), ("b", UValue.vint 2)]),
   C10_api_key_every_request.1 ⟨"K", "current"⟩ "x" none,
   C10_api_key_every_request.2 ⟨"K", "current"⟩ "diabetes" "atom" "words"
     false "concept" 32 1 [] _ rfl⟩

theorem exceptBindRaw_ok {α β ε : Type} (a : α) (f : α → Except ε β) :
    (Except.ok a : Except ε α).bind f = f a := rfl

theorem exceptBindRaw_error {α β ε : Type} (e : ε) (f : α → Except ε β) :
    (Except.error e : Except ε α).bind f = .error e := rfl

/-- C5: normalizing a sequence whose elements each normalize successfully
yields a sequence of the same length, in the same order, each element being
exactly the result of normalizing the corresponding input element alone (a
failing element would instead propagate its exception). -/
theorem C5_sequence_elementwise (S : List UValue)
    (h : ∀ x ∈ S, ∃ pr, parseJsonResults x = .ok pr) :
    ∃ ps, parseList S = .ok ps ∧
      parseJsonResults (.varr S) =
        .ok (.varr (ps.map (·.1)), .varr (ps.map (·.2))) ∧
      List.Forall₂ (fun x pr => parseJsonResults x = .ok pr) S ps ∧
      ps.length = S.length := by
  have hl : ∃ ps, parseList S = .ok ps := by
    induction S with
    | nil => exact ⟨[], rfl⟩
    | cons x xs ih =>
      obtain ⟨pr, hx⟩ := h x (List.mem_cons_self _ _)
      obtain ⟨ps, hps⟩ := ih (fun y hy => h y (List.mem_cons_of_mem _ hy))
      refine ⟨pr :: ps, ?_⟩
      simp only [parseList, hx, exceptBind_ok, hps]
  obtain ⟨ps, hps⟩ := hl
  have hf2 := parseList_forall2 S ps hps
  refine ⟨ps, hps, ?_, hf2, hf2.length_eq.symm⟩
  simp only [parseJsonResults, hps, exceptMap_ok]

theorem C5_witness :
    ∃ ps, parseList [UValue.vobj [("a", UValue.vstr "None")],
        UValue.vobj [("b", UValue.vstr "x")]] = .ok ps ∧
      parseJsonResults (.varr [UValue.vobj [("a", UValue.vstr "None")],
        UValue.vobj [("b", UValue.vstr "x")]]) =
        .ok (.varr (ps.map (·.1)), .varr (ps.map (·.2))) ∧
      List.Forall₂ (fun x pr => parseJsonResults x = .ok pr)
        [UValue.vobj [("a", UValue.vstr "None")],
         UValue.vobj [("b", UValue.vstr "x")]] ps ∧
      ps.length = [UValue.vobj [("a", UValue.vstr "None")],
        UValue.vobj [("b", UValue.vstr "x")]].length :=
  C5_sequence_elementwise _ (by
    intro x hx
    simp only [List.mem_cons, List.not_mem_nil, or_false] at hx
    cases hx with
    | inl h1 => subst h1; exact ⟨_, rfl⟩
    | inr h2 => subst h2; exact ⟨_, rfl⟩)

/-- C8: a mapping with no discriminator and a "relation" key holding exactly
the four fields relation, type, flag, other (none being a case-insensitive
"none" string) normalizes to a Relation record with those four field values
and the defaulted absent inverseRelation. -/
theorem C8_relation_defaults_inverse (r t f o : String)
    (hr : (pyUpper r == "NONE") = false) (ht : (pyUpper t == "NONE") = false)
    (hf : (pyUpper f == "NONE") = false) (ho : (pyUpper o == "NONE") = false) :
    parseJsonResults (.vobj [("relation", .vstr r), ("type", .vstr t),
      ("flag", .vstr f), ("other", .vstr o)]) =
    .ok (.vrec .Relation [("relation", .vstr r), ("type", .vstr t),
      ("flag", .vstr f), ("other", .vstr o), ("inverseRelation", .vnull)],
     .vobj [("relation", .vstr r), ("type", .vstr t), ("flag", .vstr f),
      ("other", .vstr o)]) := by
  have hscan : scanFields [("relation", UValue.vstr r), ("type", UValue.vstr t),
      ("flag", UValue.vstr f), ("other", UValue.vstr o)] =
      .ok [("relation", UValue.vstr r), ("type", UValue.vstr t),
        ("flag", UValue.vstr f), ("other", UValue.vstr o)] :=
    scanFields_inert _ (by simp [scanInert, hr, ht, hf, ho])
  simp only [parseJsonResults, hscan, exceptBindRaw_ok]
  rfl

theorem C8_witness :
    (pyUpper "RO" == "NONE") = false ∧ (pyUpper "X" == "NONE") = false ∧
    (pyUpper "N" == "NONE") = false ∧ (pyUpper "Y" == "NONE") = false ∧
    parseJsonResults (.vobj [("relation", .vstr "RO"), ("type", .vstr "X"),
      ("flag", .vstr "N"), ("other", .vstr "Y")]) =
    .ok (.vrec .Relation [("relation", .vstr "RO"), ("type", .vstr "X"),
      ("flag", .vstr "N"), ("other", .vstr "Y"), ("inverseRelation", .vnull)],
     .vobj [("relation", .vstr "RO"), ("type", .vstr "X"), ("flag", .vstr "N"),
      ("other", .vstr "Y")]) :=
  ⟨rfl, rfl, rfl, rfl, C8_relation_defaults_inverse "RO" "X" "N" "Y" rfl rfl rfl rfl⟩

/-- C1 is refuted: a mapping value that is not tagged "SemanticGroup" is left
raw by the scan and lands untyped inside the constructed Relation record, so
a normalized result does hold a raw untyped nested mapping. -/
theorem C1_counterexample :
    parseJsonResults (.vobj [("relation", .vobj [("x", .vstr "y")]),
      ("type", .vstr "t"), ("flag", .vstr "f"), ("other", .vstr "o")]) =
      .ok (.vrec .Relation [("relation", .vobj [("x", .vstr "y")]),
        ("type", .vstr "t"), ("flag", .vstr "f"), ("other", .vstr "o"),
        ("inverseRelation", .vnull)],
       .vobj [("relation", .vobj [("x", .vstr "y")]), ("type", .vstr "t"),
        ("flag", .vstr "f"), ("other", .vstr "o")]) ∧
    recordFieldsTyped (.vrec .Relation [("relation", .vobj [("x", .vstr "y")]),
      ("type", .vstr "t"), ("flag", .vstr "f"), ("other", .vstr "o"),
      ("inverseRelation", .vnull)]) = false :=
  ⟨rfl, rfl⟩

/-- C1 amended: nested mapping values are recursively normalized only when
they carry the discriminator value "SemanticGroup"; any other nested mapping
is left raw by the scan, including inside constructed records, where it
violates the claimed invariant. -/
theorem C1_amended_raw_mapping_kept (d : List (String × UValue)) (t f o : String)
    (hd : isSGTagged d = false)
    (ht : (pyUpper t == "NONE") = false) (hf : (pyUpper f == "NONE") = false)
    (ho : (pyUpper o == "NONE") = false) :
    parseJsonResults (.vobj [("relation", .vobj d), ("type", .vstr t),
      ("flag", .vstr f), ("other", .vstr o)]) =
      .ok (.vrec .Relation [("relation", .vobj d), ("type", .vstr t),
        ("flag", .vstr f), ("other", .vstr o), ("inverseRelation", .vnull)],
       .vobj [("relation", .vobj d), ("type", .vstr t), ("flag", .vstr f),
        ("other", .vstr o)]) ∧
    recordFieldsTyped (.vrec .Relation [("relation", .vobj d), ("type", .vstr t),
      ("flag", .vstr f), ("other", .vstr o), ("inverseRelation", .vnull)]) =
      false := by
  constructor
  · have hscan : scanFields [("relation", UValue.vobj d), ("type", UValue.vstr t),
        ("flag", UValue.vstr f), ("other", UValue.vstr o)] =
        .ok [("relation", UValue.vobj d), ("type", UValue.vstr t),
          ("flag", UValue.vstr f), ("other", UValue.vstr o)] :=
      scanFields_inert _ (by simp [scanInert, hd, ht, hf, ho])
    simp only [parseJsonResults, hscan, exceptBindRaw_ok]
    rfl
  · rfl

theorem C1_amended_witness :
    isSGTagged [("x", UValue.vstr "y")] = false ∧
    (pyUpper "t" == "NONE") = false ∧ (pyUpper "f" == "NONE") = false ∧
    (pyUpper "o" == "NONE") = false ∧
    (parseJsonResults (.vobj [("relation", .vobj [("x", .vstr "y")]),
      ("type", .vstr "t"), ("flag", .vstr "f"), ("other", .vstr "o")]) =
      .ok (.vrec .Relation [("relation", .vobj [("x", .vstr "y")]),
        ("type", .vstr "t"), ("flag", .vstr "f"), ("other", .vstr "o"),
        ("inverseRelation", .vnull)],
       .vobj [("relation", .vobj [("x", .vstr "y")]), ("type", .vstr "t"),
        ("flag", .vstr "f"), ("other", .vstr "o")]) ∧
    recordFieldsTyped (.vrec .Relation [("relation", .vobj [("x", .vstr "y")]),
      ("type", .vstr "t"), ("flag", .vstr "f"), ("other", .vstr "o"),
      ("inverseRelation", .vnull)]) = false) :=
  ⟨rfl, rfl, rfl, rfl,
   C1_amended_raw_mapping_kept [("x", UValue.vstr "y")] "t" "f" "o" rfl rfl rfl rfl⟩

/-- C2 is refuted: parse_json_results mutates its argument in place — after
normalizing the mapping with value "None" at key "a", the caller's mapping
holds None there, not the original string. -/
theorem C2_counterexample :
    parseJsonResults (.vobj [("a", .vstr "None")]) =
      .ok (.vobj [("a", .vnull)], .vobj [("a", .vnull)]) ∧
    UValue.vobj [("a", .vnull)] ≠ UValue.vobj [("a", .vstr "None")] :=
  ⟨rfl, by simp⟩

/-- C2 amended: the normalizer mutates its argument mapping in place, but
only as the scan and the discriminator pop dictate: the post-state is the
scanned mapping (each value rewritten by the scan rule, keys and order kept),
with the classType entry additionally removed on the generic constructor
path; entries whose values are untouched by the scan survive unchanged. -/
theorem C2_amended_mutation_bound (m : List (String × UValue)) (r p : UValue)
    (h : parseJsonResults (.vobj m) = .ok (r, p)) :
    ∃ sm, scanFields m = .ok sm ∧
      (p = .vobj sm ∨ p = .vobj (sm.eraseP (fun kv => kv.1 == "classType"))) ∧
      sm.map Prod.fst = m.map Prod.fst ∧
      (∀ kv ∈ m, scanInert kv.2 = true → kv ∈ sm) ∧
      (∀ kv ∈ m, isNoneString kv.2 = true → (kv.1, UValue.vnull) ∈ sm) := by
  simp only [parseJsonResults] at h
  cases hs : scanFields m with
  | error e => rw [hs, exceptBindRaw_error] at h; cases h
  | ok sm =>
    rw [hs, exceptBindRaw_ok] at h
    exact ⟨sm, rfl, dispatch_post sm r p h, scanFields_keys m sm hs,
      scanFields_mem_inert m sm hs, scanFields_mem_none m sm hs⟩

theorem C2_amended_witness :
    ∃ sm, scanFields [("classType", UValue.vstr "Definition"),
        ("sourceOriginated", UValue.vstr "s"), ("rootSource", UValue.vstr "r"),
        ("value", UValue.vstr "None")] = .ok sm ∧
      (UValue.vobj [("sourceOriginated", UValue.vstr "s"),
          ("rootSource", UValue.vstr "r"), ("value", UValue.vnull)] = .vobj sm ∨
       UValue.vobj [("sourceOriginated", UValue.vstr "s"),
          ("rootSource", UValue.vstr "r"), ("value", UValue.vnull)] =
         .vobj (sm.eraseP (fun kv => kv.1 == "classType"))) ∧
      sm.map Prod.fst = [("classType", UValue.vstr "Definition"),
        ("sourceOriginated", UValue.vstr "s"), ("rootSource", UValue.vstr "r"),
        ("value", UValue.vstr "None")].map Prod.fst ∧
      (∀ kv ∈ [("classType", UValue.vstr "Definition"),
        ("sourceOriginated", UValue.vstr "s"), ("rootSource", UValue.vstr "r"),
        ("value", UValue.vstr "None")], scanInert kv.2 = true → kv ∈ sm) ∧
      (∀ kv ∈ [("classType", UValue.vstr "Definition"),
        ("sourceOriginated", UValue.vstr "s"), ("rootSource", UValue.vstr "r"),
        ("value", UValue.vstr "None")], isNoneString kv.2 = true →
        (kv.1, UValue.vnull) ∈ sm) :=
  C2_amended_mutation_bound _
    (UValue.vrec .Definition [("sourceOriginated", UValue.vstr "s"),
      ("rootSource", UValue.vstr "r"), ("value", UValue.vnull)])
    (UValue.vobj [("sourceOriginated", UValue.vstr "s"),
      ("rootSource", UValue.vstr "r"), ("value", UValue.vnull)]) rfl

/-- C6 is refuted: a mapping containing a case-insensitive "none" string can
make normalization raise instead of returning the mapping with that value
replaced — here the "relation" key routes the scanned mapping into
Relation(**kwargs), which rejects the unexpected keyword "a". -/
theorem C6_counterexample :
    parseJsonResults (.vobj [("a", .vstr "None"), ("relation", .vstr "R")]) =
      .error .typeMismatch :=
  rfl

/-- C6 amended: in a mapping with no classType discriminator and no relation
or relation1 key, every case-insensitive "none" string value is replaced by
the absent marker; the mapping itself is returned, its keys and their order
are preserved, and every value the scan does not target is unchanged. -/
theorem C6_amended_none_to_null (m sm : List (String × UValue))
    (k s : String)
    (hmem : (k, UValue.vstr s) ∈ m) (hnone : (pyUpper s == "NONE") = true)
    (hct : "classType" ∉ m.map Prod.fst)
    (hrel : "relation" ∉ m.map Prod.fst)
    (hrel1 : "relation1" ∉ m.map Prod.fst)
    (hscan : scanFields m = .ok sm) :
    parseJsonResults (.vobj m) = .ok (.vobj sm, .vobj sm) ∧
      (k, UValue.vnull) ∈ sm ∧
      sm.map Prod.fst = m.map Prod.fst ∧
      (∀ kv ∈ m, scanInert kv.2 = true → kv ∈ sm) := by
  have hkeys := scanFields_keys m sm hscan
  have hct2 : List.lookup "classType" sm = none :=
    lookup_eq_none_of_not_mem _ _ (by rw [hkeys]; exact hct)
  have hrel2 : List.lookup "relation" sm = none :=
    lookup_eq_none_of_not_mem _ _ (by rw [hkeys]; exact hrel)
  have hrel12 : List.lookup "relation1" sm = none :=
    lookup_eq_none_of_not_mem _ _ (by rw [hkeys]; exact hrel1)
  refine ⟨?_, ?_, hkeys, scanFields_mem_inert m sm hscan⟩
  · simp only [parseJsonResults, hscan, exceptBindRaw_ok]
    unfold dispatch
    rw [hct2]
    simp [hrel2, hrel12]
  · exact scanFields_mem_none m sm hscan (k, UValue.vstr s) hmem
      (by simp [isNoneString, hnone])

theorem C6_amended_witness :
    ((("a" : String), UValue.vstr "NoNe") ∈
      [(("a" : String), UValue.vstr "NoNe"), ("b", UValue.vstr "x")]) ∧
    (pyUpper "NoNe" == "NONE") = true ∧
    (parseJsonResults (.vobj [("a", UValue.vstr "NoNe"), ("b", UValue.vstr "x")]) =
      .ok (.vobj [("a", UValue.vnull), ("b", UValue.vstr "x")],
           .vobj [("a", UValue.vnull), ("b", UValue.vstr "x")]) ∧
      (("a" : String), UValue.vnull) ∈
        [(("a" : String), UValue.vnull), ("b", UValue.vstr "x")] ∧
      ([(("a" : String), UValue.vnull), ("b", UValue.vstr "x")].map Prod.fst =
        [(("a" : String), UValue.vstr "NoNe"), ("b", UValue.vstr "x")].map Prod.fst) ∧
      (∀ kv ∈ [(("a" : String), UValue.vstr "NoNe"), ("b", UValue.vstr "x")],
        scanInert kv.2 = true →
        kv ∈ [(("a" : String), UValue.vnull), ("b", UValue.vstr "x")])) :=
  ⟨List.mem_cons_self _ _, rfl,
   C6_amended_none_to_null
     [("a", UValue.vstr "NoNe"), ("b", UValue.vstr "x")]
     [("a", UValue.vnull), ("b", UValue.vstr "x")] "a" "NoNe"
     (List.mem_cons_self _ _) rfl (by decide) (by decide) (by decide) rfl⟩

theorem parse_rawHit (q : RawHit) (h : rawHitInert q = true) :
    parseJsonResults (rawHitObj q) = .ok (rawHitObj q, rawHitObj q) := by
  obtain ⟨u, rs, ur, nm⟩ := q
  have hscan : scanFields [("ui", UValue.vstr u), ("rootSource", UValue.vstr rs),
      ("uri", UValue.vstr ur), ("name", UValue.vstr nm)] =
      .ok [("ui", UValue.vstr u), ("rootSource", UValue.vstr rs),
        ("uri", UValue.vstr ur), ("name", UValue.vstr nm)] :=
    scanFields_inert _ (by simpa [rawHitInert, scanInert, and_assoc] using h)
  simp only [rawHitObj, parseJsonResults, hscan, exceptBindRaw_ok]
  rfl

theorem parseList_rawHits (L : List RawHit) (h : L.all rawHitInert = true) :
    parseList (L.map rawHitObj) =
      .ok (L.map (fun q => (rawHitObj q, rawHitObj q))) := by
  induction L with
  | nil => rfl
  | cons q rest ih =>
    simp only [List.all_cons, Bool.and_eq_true] at h
    simp only [List.map_cons, parseList, parse_rawHit q h.1, exceptBind_ok,
      ih h.2]

theorem constructHits_rawHits (L : List RawHit) :
    constructHits (L.map rawHitObj) = .ok (L.map rawHitRec) := by
  induction L with
  | nil => rfl
  | cons q rest ih =>
    obtain ⟨u, rs, ur, nm⟩ := q
    simp only [List.map_cons, rawHitObj, constructHits, ih, exceptBind_ok,
      rawHitRec]
    rfl

/-- C3 is refuted on the "verbatim, no recursive normalization" part: the
"results" list is a list value of the mapping, so the scan recursively
normalizes it before the SearchResult conversion; an entry field "None"
therefore reaches the record as the absent marker, not as the verbatim
string. -/
theorem C3_counterexample :
    parseJsonResults (.vobj [("classType", .vstr "searchResults"),
      ("results", .varr [.vobj [("ui", .vstr "None"), ("rootSource", .vstr "r"),
        ("uri", .vstr "u"), ("name", .vstr "n")]])]) =
      .ok (.varr [.vrec .SearchResult [("ui", .vnull), ("rootSource", .vstr "r"),
        ("uri", .vstr "u"), ("name", .vstr "n")]],
       .vobj [("classType", .vstr "searchResults"),
        ("results", .varr [.vobj [("ui", .vnull), ("rootSource", .vstr "r"),
          ("uri", .vstr "u"), ("name", .vstr "n")]])]) ∧
    UValue.vnull ≠ UValue.vstr "None" :=
  ⟨rfl, by simp⟩

/-- C3 amended: for a "searchResults" mapping whose "results" list holds N
flat raw entries with exactly the fields ui, rootSource, uri and name, the
entries are first recursively normalized by the value scan (which leaves
them unchanged when no field is a case-insensitive "none" string) and then
converted one by one into SearchResult records: the output is exactly N
records, in input order, with the four fields taken verbatim. -/
theorem C3_amended_search_results (L : List RawHit)
    (h : L.all rawHitInert = true) :
    parseJsonResults (.vobj [("classType", .vstr "searchResults"),
      ("results", .varr (L.map rawHitObj))]) =
      .ok (.varr (L.map rawHitRec),
       .vobj [("classType", .vstr "searchResults"),
        ("results", .varr (L.map rawHitObj))]) := by
  have hpl := parseList_rawHits L h
  have hscan : scanFields [("classType", UValue.vstr "searchResults"),
      ("results", UValue.varr (L.map rawHitObj))] =
      .ok [("classType", UValue.vstr "searchResults"),
        ("results", UValue.varr (L.map rawHitObj))] := by
    simp only [scanFields, scanValue, hpl, exceptMap_ok, exceptBind_ok]
    simp [List.map_map, Function.comp]
    decide
  simp only [parseJsonResults, hscan, exceptBindRaw_ok]
  unfold dispatch
  simp only [List.lookup]
  unfold searchResultsPath
  simp only [List.lookup]
  simp [constructHits_rawHits L, exceptMap_ok]

theorem C3_amended_witness :
    ([RawHit.mk "a1" "SNOMEDCT_US" "u1" "n1",
      RawHit.mk "a2" "MSH" "u2" "n2"].all rawHitInert = true) ∧
    parseJsonResults (.vobj [("classType", .vstr "searchResults"),
      ("results", .varr ([RawHit.mk "a1" "SNOMEDCT_US" "u1" "n1",
        RawHit.mk "a2" "MSH" "u2" "n2"].map rawHitObj))]) =
      .ok (.varr ([RawHit.mk "a1" "SNOMEDCT_US" "u1" "n1",
        RawHit.mk "a2" "MSH" "u2" "n2"].map rawHitRec),
       .vobj [("classType", .vstr "searchResults"),
        ("results", .varr ([RawHit.mk "a1" "SNOMEDCT_US" "u1" "n1",
          RawHit.mk "a2" "MSH" "u2" "n2"].map rawHitObj))]) :=
  ⟨rfl, C3_amended_search_results _ rfl⟩

/-- C9 is refuted as stated: the lowercase discriminator "concept" is looked
up verbatim on the base module, whose class is named "Concept", so
normalization fails with the lookup error instead of returning a Concept
record — even when all fifteen fields, including a nested semanticTypes
list, are present. -/
theorem C9_counterexample :
    parseJsonResults (.vobj [("classType", .vstr "concept"),
      ("ui", .vstr "C0011849"), ("suppressible", .vbool false),
      ("dateAdded", .vstr "09-30-1990"), ("majorRevisionDate", .vstr "03-09-2021"),
      ("status", .vstr "R"),
      ("semanticTypes", .varr [.vobj [("x", .vstr "y")]]),
      ("atomCount", .vint 161), ("attributeCount", .vint 0),
      ("cvMemberCount", .vint 0), ("atoms", .vstr "a"),
      ("definitions", .vstr "d"), ("relations", .vstr "r"),
      ("defaultPreferredAtom", .vstr "p"), ("relationCount", .vint 5),
      ("name", .vstr "Diabetes Mellitus")]) =
      .error (.attrLookup "concept") :=
  rfl

/-- C9 amended: with the discriminator capitalized as the record class name
"Concept" (the casing the service emits), a mapping holding the fifteen
Concept fields, whose semanticTypes field is a nested list, normalizes to a
Concept record whose semanticTypes field is the recursively normalized
sequence — the normalized elements, not the raw list. -/
theorem C9_amended_capitalized_concept
    (u sp da mrd st atc attc cvc ats dfs rls dpa rlc nm : UValue)
    (L : List UValue) (ps : List (UValue × UValue))
    (hL : parseList L = .ok ps)
    (h1 : scanInert u = true) (h2 : scanInert sp = true)
    (h3 : scanInert da = true) (h4 : scanInert mrd = true)
    (h5 : scanInert st = true) (h6 : scanInert atc = true)
    (h7 : scanInert attc = true) (h8 : scanInert cvc = true)
    (h9 : scanInert ats = true) (h10 : scanInert dfs = true)
    (h11 : scanInert rls = true) (h12 : scanInert dpa = true)
    (h13 : scanInert rlc = true) (h14 : scanInert nm = true) :
    parseJsonResults (.vobj [("classType", .vstr "Concept"),
      ("ui", u), ("suppressible", sp), ("dateAdded", da),
      ("majorRevisionDate", mrd), ("status", st),
      ("semanticTypes", .varr L), ("atomCount", atc),
      ("attributeCount", attc), ("cvMemberCount", cvc), ("atoms", ats),
      ("definitions", dfs), ("relations", rls),
      ("defaultPreferredAtom", dpa), ("relationCount", rlc),
      ("name", nm)]) =
      .ok (.vrec .Concept [("ui", u), ("suppressible", sp), ("dateAdded", da),
        ("majorRevisionDate", mrd), ("status", st),
        ("semanticTypes", .varr (ps.map (·.1))), ("atomCount", atc),
        ("attributeCount", attc), ("cvMemberCount", cvc), ("atoms", ats),
        ("definitions", dfs), ("relations", rls),
        ("defaultPreferredAtom", dpa), ("relationCount", rlc), ("name", nm)],
       .vobj [("ui", u), ("suppressible", sp), ("dateAdded", da),
        ("majorRevisionDate", mrd), ("status", st),
        ("semanticTypes", .varr (ps.map (·.1))), ("atomCount", atc),
        ("attributeCount", attc), ("cvMemberCount", cvc), ("atoms", ats),
        ("definitions", dfs), ("relations", rls),
        ("defaultPreferredAtom", dpa), ("relationCount", rlc),
        ("name", nm)]) := by
  have hc : scanValue (UValue.vstr "Concept") = .ok (UValue.vstr "Concept") := rfl
  have hsem : scanValue (UValue.varr L) = .ok (.varr (ps.map (·.1))) := by
    simp only [scanValue, hL, exceptMap_ok]
  have hscan : scanFields [("classType", UValue.vstr "Concept"),
      ("ui", u), ("suppressible", sp), ("dateAdded", da),
      ("majorRevisionDate", mrd), ("status", st),
      ("semanticTypes", UValue.varr L), ("atomCount", atc),
      ("attributeCount", attc), ("cvMemberCount", cvc), ("atoms", ats),
      ("definitions", dfs), ("relations", rls),
      ("defaultPreferredAtom", dpa), ("relationCount", rlc),
      ("name", nm)] =
      .ok [("classType", UValue.vstr "Concept"),
        ("ui", u), ("suppressible", sp), ("dateAdded", da),
        ("majorRevisionDate", mrd), ("status", st),
        ("semanticTypes", .varr (ps.map (·.1))), ("atomCount", atc),
        ("attributeCount", attc), ("cvMemberCount", cvc), ("atoms", ats),
        ("definitions", dfs), ("relations", rls),
        ("defaultPreferredAtom", dpa), ("relationCount", rlc),
        ("name", nm)] := by
    simp only [scanFields, hc, hsem, scanValue_inert _ h1, scanValue_inert _ h2,
      scanValue_inert _ h3, scanValue_inert _ h4, scanValue_inert _ h5,
      scanValue_inert _ h6, scanValue_inert _ h7, scanValue_inert _ h8,
      scanValue_inert _ h9, scanValue_inert _ h10, scanValue_inert _ h11,
      scanValue_inert _ h12, scanValue_inert _ h13, scanValue_inert _ h14,
      exceptBind_ok]
  simp only [parseJsonResults, hscan, exceptBindRaw_ok]
  rfl

theorem C9_amended_witness :
    parseList [UValue.vobj [("x", UValue.vstr "y")]] =
      .ok [(UValue.vobj [("x", UValue.vstr "y")],
            UValue.vobj [("x", UValue.vstr "y")])] ∧
    scanInert (UValue.vstr "C1") = true ∧
    parseJsonResults (.vobj [("classType", .vstr "Concept"),
      ("ui", .vstr "C1"), ("suppressible", .vstr "C1"), ("dateAdded", .vstr "C1"),
      ("majorRevisionDate", .vstr "C1"), ("status", .vstr "C1"),
      ("semanticTypes", .varr [UValue.vobj [("x", UValue.vstr "y")]]),
      ("atomCount", .vstr "C1"), ("attributeCount", .vstr "C1"),
      ("cvMemberCount", .vstr "C1"), ("atoms", .vstr "C1"),
      ("definitions", .vstr "C1"), ("relations", .vstr "C1"),
      ("defaultPreferredAtom", .vstr "C1"), ("relationCount", .vstr "C1"),
      ("name", .vstr "C1")]) =
      .ok (.vrec .Concept [("ui", .vstr "C1"), ("suppressible", .vstr "C1"),
        ("dateAdded", .vstr "C1"), ("majorRevisionDate", .vstr "C1"),
        ("status", .vstr "C1"),
        ("semanticTypes", .varr ([(UValue.vobj [("x", UValue.vstr "y")],
          UValue.vobj [("x", UValue.vstr "y")])].map (·.1))),
        ("atomCount", .vstr "C1"), ("attributeCount", .vstr "C1"),
        ("cvMemberCount", .vstr "C1"), ("atoms", .vstr "C1"),
        ("definitions", .vstr "C1"), ("relations", .vstr "C1"),
        ("defaultPreferredAtom", .vstr "C1"), ("relationCount", .vstr "C1"),
        ("name", .vstr "C1")],
       .vobj [("ui", .vstr "C1"), ("suppressible", .vstr "C1"),
        ("dateAdded", .vstr "C1"), ("majorRevisionDate", .vstr "C1"),
        ("status", .vstr "C1"),
        ("semanticTypes", .varr ([(UValue.vobj [("x", UValue.vstr "y")],
          UValue.vobj [("x", UValue.vstr "y")])].map (·.1))),
        ("atomCount", .vstr "C1"), ("attributeCount", .vstr "C1"),
        ("cvMemberCount", .vstr "C1"), ("atoms", .vstr "C1"),
        ("definitions", .vstr "C1"), ("relations", .vstr "C1"),
        ("defaultPreferredAtom", .vstr "C1"), ("relationCount", .vstr "C1"),
        ("name", .vstr "C1")]) :=
  ⟨rfl, rfl,
   C9_amended_capitalized_concept (UValue.vstr "C1") (UValue.vstr "C1")
     (UValue.vstr "C1") (UValue.vstr "C1") (UValue.vstr "C1") (UValue.vstr "C1")
     (UValue.vstr "C1") (UValue.vstr "C1") (UValue.vstr "C1") (UValue.vstr "C1")
     (UValue.vstr "C1") (UValue.vstr "C1") (UValue.vstr "C1") (UValue.vstr "C1")
     [UValue.vobj [("x", UValue.vstr "y")]]
     [(UValue.vobj [("x", UValue.vstr "y")], UValue.vobj [("x", UValue.vstr "y")])]
     rfl rfl rfl rfl rfl rfl rfl rfl rfl rfl rfl rfl rfl rfl rfl⟩
